import Mathlib

/-!
# sx1302_hal: SPI transaction helpers and the QSORT_R wrapper

A shallow embedding of

* `libloragw/src/sx125x_spi.c` (`sx125x_spi_r`, `sx125x_spi_w`),
* `libloragw/src/sx1261_spi.c` (`sx1261_spi_r`, `sx1261_spi_w`),
* `libloragw/src/qsort_r.c` (`qs_glue`, `QSORT_R`).

Bytes and sizes are natural numbers; a store into a `uint8_t` is an explicit
`% 256`. A nullable pointer is an `Option`. A pointer to a buffer that is
handed to the SPI driver is modelled by the contents of that buffer. The
operating-system services (`ioctl`, `wait_ms`, `qsort`) are not part of the
repository: `ioctl` and `qsort` are parameters of the functions that call
them, and every call of `wait_ms` and `ioctl` is recorded in a trace.
-/

namespace Sx1302Hal

/-! ## The SPI environment -/

/-- The two build targets selected by the preprocessor conditionals
`defined(__linux__)` and `defined(__FreeBSD__)`. -/
inductive Platform where
  | linux
  | freebsd
  deriving DecidableEq, Repr

/-- Modelled from the spec: the status constants `LGW_SPI_SUCCESS` and
`LGW_SPI_ERROR` of `loragw_spi.h`, a header that is not among the sources. The
spec names exactly two outcomes, success and generic I/O failure; their
numeric values are not used. -/
inductive SpiStatus where
  | LGW_SPI_SUCCESS
  | LGW_SPI_ERROR
  deriving DecidableEq, Repr

export SpiStatus (LGW_SPI_SUCCESS LGW_SPI_ERROR)

/-- The fields of the Linux `struct spi_ioc_transfer` that the code sets.
`tx_buf` and `rx_buf` are pointers: `none` is the null pointer left by
`memset`, `some b` points to an array whose contents are `b`. -/
structure spi_ioc_transfer where
  tx_buf : Option (List Nat)
  rx_buf : Option (List Nat)
  len : Nat
  speed_hz : Nat
  cs_change : Nat
  bits_per_word : Nat
  deriving DecidableEq, Repr

/-- The value of a `struct spi_ioc_transfer` after `memset(&k, 0, sizeof(k))`. -/
def spi_ioc_transfer.zero : spi_ioc_transfer :=
  { tx_buf := none, rx_buf := none, len := 0, speed_hz := 0, cs_change := 0, bits_per_word := 0 }

/-- The C `struct iovec`: a base pointer and a length. -/
structure iovec where
  iov_base : Option (List Nat)
  iov_len : Nat
  deriving DecidableEq, Repr

/-- The FreeBSD `struct spigen_transfer`. -/
structure spigen_transfer where
  st_command : iovec
  st_data : iovec
  deriving DecidableEq, Repr

/-- The two `ioctl` requests the code issues, with their argument. -/
inductive IoctlReq where
  | SPI_IOC_MESSAGE_1 (k : spi_ioc_transfer)
  | SPIGENIOC_TRANSFER (st : spigen_transfer)
  deriving DecidableEq, Repr

/-- What an `ioctl` call gives back: its return value `a`, and the bytes the
driver stored from the start of the receive buffer (none for a write). -/
structure IoctlRes where
  ret : Int
  rx : List Nat
  deriving DecidableEq, Repr

/-- The transfer primitive: the operating system's `ioctl` on a device. -/
abbrev Ioctl := Int → IoctlReq → IoctlRes

/-- The externally visible actions of one call, in program order. -/
inductive Event where
  | wait_ms (ms : Nat)
  | ioctl (fd : Int) (req : IoctlReq)
  deriving DecidableEq, Repr

/-- The outcome of one call: the returned status, the memory behind the
caller's `data` pointer afterwards, and the actions performed. -/
structure SpiResult (β : Type) where
  ret : SpiStatus
  data : β
  trace : List Event
  deriving Repr

/-- A receive array after the driver stored `rx` from its start: the stored
bytes, followed by what the array held before beyond them. -/
def stored (rx in_buf : List Nat) : List Nat :=
  rx ++ in_buf.drop rx.length

/-- The bytes a request asks the driver to send: the first `len` bytes behind
the transmit pointer. -/
def IoctlReq.frame : IoctlReq → List Nat
  | .SPI_IOC_MESSAGE_1 k => (k.tx_buf.getD []).take k.len
  | .SPIGENIOC_TRANSFER st => (st.st_command.iov_base.getD []).take st.st_command.iov_len

/-- The number of bytes a request asks the driver to clock out. -/
def IoctlReq.len : IoctlReq → Nat
  | .SPI_IOC_MESSAGE_1 k => k.len
  | .SPIGENIOC_TRANSFER st => st.st_command.iov_len

/-- Whether a request carries a receive buffer (a full-duplex transfer). -/
def IoctlReq.fullDuplex : IoctlReq → Bool
  | .SPI_IOC_MESSAGE_1 k => k.rx_buf.isSome
  | .SPIGENIOC_TRANSFER st => st.st_data.iov_base.isSome

/-- The success test of the platform on the `ioctl` return value `a` for a
request of `len` bytes: `a == (int)k.len` on Linux, `a >= 0` on FreeBSD. -/
def transferOk (p : Platform) (a : Int) (len : Nat) : Bool :=
  match p with
  | .linux => a == (len : Int)
  | .freebsd => decide (0 ≤ a)

/-! ## sx125x_spi.c -/

/-- The `READ_ACCESS` constant of `sx125x_spi.c`. -/
def READ_ACCESS : Nat := 0x00

/-- The `WRITE_ACCESS` constant of `sx125x_spi.c`. -/
def WRITE_ACCESS : Nat := 0x80

/-- The function `sx125x_spi_r`. `in_buf` is the indeterminate initial content
of the local receive array; `data` is the caller's output byte (`none`: a null
pointer). -/
def sx125x_spi_r (p : Platform) (ioctl : Ioctl) (in_buf : List Nat)
    (com_target : Option Int) (spi_mux_target address : Nat) (data : Option Nat) :
    SpiResult (Option Nat) :=
  -- CHECK_NULL(com_target); CHECK_NULL(data);
  match com_target with
  | none => { ret := LGW_SPI_ERROR, data := data, trace := [] }
  | some com_device =>
  match data with
  | none => { ret := LGW_SPI_ERROR, data := data, trace := [] }
  | some _ =>
    let out_buf : List Nat :=
      [spi_mux_target, (READ_ACCESS ||| (address &&& 0x7F)) % 256, 0x00]
    let command_size : Nat := 3
    match p with
    | .linux =>
      let k : spi_ioc_transfer :=
        { spi_ioc_transfer.zero with
          tx_buf := some out_buf, rx_buf := some in_buf, len := command_size, cs_change := 0 }
      let req := IoctlReq.SPI_IOC_MESSAGE_1 k
      let r := ioctl com_device req
      let a := r.ret
      let in_buf := stored r.rx in_buf
      if a ≠ (k.len : Int) then
        { ret := LGW_SPI_ERROR, data := data, trace := [Event.ioctl com_device req] }
      else
        { ret := LGW_SPI_SUCCESS, data := some (in_buf.getD (command_size - 1) 0),
          trace := [Event.ioctl com_device req] }
    | .freebsd =>
      let cmd_iov : iovec := { iov_base := some out_buf, iov_len := command_size }
      let data_iov : iovec := { iov_base := some in_buf, iov_len := command_size }
      let st : spigen_transfer := { st_command := cmd_iov, st_data := data_iov }
      let req := IoctlReq.SPIGENIOC_TRANSFER st
      let r := ioctl com_device req
      let a := r.ret
      let in_buf := stored r.rx in_buf
      if a < 0 then
        { ret := LGW_SPI_ERROR, data := data, trace := [Event.ioctl com_device req] }
      else
        { ret := LGW_SPI_SUCCESS, data := some (in_buf.getD (command_size - 1) 0),
          trace := [Event.ioctl com_device req] }

/-- The function `sx125x_spi_w`. `SPI_SPEED` is a constant of `loragw_spi.h`,
which is not among the sources, so it is a parameter. The data byte is passed
by value, so the result carries no memory. -/
def sx125x_spi_w (p : Platform) (ioctl : Ioctl) (SPI_SPEED : Nat)
    (spi_target : Option Int) (spi_mux_target address data : Nat) : SpiResult Unit :=
  -- CHECK_NULL(spi_target);
  match spi_target with
  | none => { ret := LGW_SPI_ERROR, data := (), trace := [] }
  | some spi_device =>
    let out_buf : List Nat :=
      [spi_mux_target, (WRITE_ACCESS ||| (address &&& 0x7F)) % 256, data]
    let command_size : Nat := 3
    match p with
    | .linux =>
      let k : spi_ioc_transfer :=
        { spi_ioc_transfer.zero with
          tx_buf := some out_buf, len := command_size, speed_hz := SPI_SPEED,
          cs_change := 0, bits_per_word := 8 }
      let req := IoctlReq.SPI_IOC_MESSAGE_1 k
      let a := (ioctl spi_device req).ret
      if a ≠ (k.len : Int) then
        { ret := LGW_SPI_ERROR, data := (), trace := [Event.ioctl spi_device req] }
      else
        { ret := LGW_SPI_SUCCESS, data := (), trace := [Event.ioctl spi_device req] }
    | .freebsd =>
      let cmd_iov : iovec := { iov_base := some out_buf, iov_len := command_size }
      let data_iov : iovec := { iov_base := none, iov_len := 0 }
      let st : spigen_transfer := { st_command := cmd_iov, st_data := data_iov }
      let req := IoctlReq.SPIGENIOC_TRANSFER st
      let a := (ioctl spi_device req).ret
      if a < 0 then
        { ret := LGW_SPI_ERROR, data := (), trace := [Event.ioctl spi_device req] }
      else
        { ret := LGW_SPI_SUCCESS, data := (), trace := [Event.ioctl spi_device req] }

/-! ## sx1261_spi.c -/

/-- The `WAIT_BUSY_SX1250_MS` constant of `sx1261_spi.c`. -/
def WAIT_BUSY_SX1250_MS : Nat := 1

/-- The C `memcpy(dst, src, n)` on array contents: the first `n` bytes of `dst`
become the first `n` bytes of `src`. -/
def memcpy (dst src : List Nat) (n : Nat) : List Nat :=
  src.take n ++ dst.drop n

/-- The function `sx1261_spi_w`. `out_init` gives the indeterminate initial
content of the variable-length array `out_buf`, cell by cell. `op_code` is the
value of the enumeration `sx1261_op_code_t` (its header is not among the
sources); `data` is the caller's payload (`none`: a null pointer) and `size`
the 16-bit byte count. `SPI_SPEED` is a constant of `loragw_spi.h`. -/
def sx1261_spi_w (p : Platform) (ioctl : Ioctl) (SPI_SPEED : Nat) (out_init : Nat → Nat)
    (com_target : Option Int) (op_code : Nat) (data : Option (List Nat)) (size : Nat) :
    SpiResult (Option (List Nat)) :=
  let cmd_size : Nat := 1
  -- uint8_t out_buf[cmd_size + size];
  let out_buf : List Nat := (List.range (cmd_size + size)).map out_init
  -- wait_ms(WAIT_BUSY_SX1250_MS);
  let t : List Event := [Event.wait_ms WAIT_BUSY_SX1250_MS]
  -- CHECK_NULL(com_target); CHECK_NULL(data);
  match com_target with
  | none => { ret := LGW_SPI_ERROR, data := data, trace := t }
  | some com_device =>
  match data with
  | none => { ret := LGW_SPI_ERROR, data := data, trace := t }
  | some payload =>
    -- out_buf[0] = (uint8_t)op_code;
    let out_buf := out_buf.set 0 (op_code % 256)
    -- for(i = 0; i < (int)size; i++) out_buf[cmd_size + i] = data[i];
    let out_buf := (List.range size).foldl
      (fun buf i => buf.set (cmd_size + i) (payload.getD i 0)) out_buf
    -- uint8_t command_size = cmd_size + size;
    let command_size : Nat := (cmd_size + size) % 256
    match p with
    | .linux =>
      let k : spi_ioc_transfer :=
        { spi_ioc_transfer.zero with
          tx_buf := some out_buf, len := command_size, speed_hz := SPI_SPEED,
          cs_change := 0, bits_per_word := 8 }
      let req := IoctlReq.SPI_IOC_MESSAGE_1 k
      let a := (ioctl com_device req).ret
      if a ≠ (k.len : Int) then
        { ret := LGW_SPI_ERROR, data := data, trace := t ++ [Event.ioctl com_device req] }
      else
        { ret := LGW_SPI_SUCCESS, data := data, trace := t ++ [Event.ioctl com_device req] }
    | .freebsd =>
      let cmd_iov : iovec := { iov_base := some out_buf, iov_len := command_size }
      let data_iov : iovec := { iov_base := none, iov_len := 0 }
      let st : spigen_transfer := { st_command := cmd_iov, st_data := data_iov }
      let req := IoctlReq.SPIGENIOC_TRANSFER st
      let a := (ioctl com_device req).ret
      if a < 0 then
        { ret := LGW_SPI_ERROR, data := data, trace := t ++ [Event.ioctl com_device req] }
      else
        { ret := LGW_SPI_SUCCESS, data := data, trace := t ++ [Event.ioctl com_device req] }

/-- The function `sx1261_spi_r`. `out_init` and `in_init` give the
indeterminate initial contents of the variable-length arrays `out_buf` and
`in_buf`, cell by cell; the other arguments are as for `sx1261_spi_w`. -/
def sx1261_spi_r (p : Platform) (ioctl : Ioctl) (out_init in_init : Nat → Nat)
    (com_target : Option Int) (op_code : Nat) (data : Option (List Nat)) (size : Nat) :
    SpiResult (Option (List Nat)) :=
  let cmd_size : Nat := 1
  -- uint8_t out_buf[cmd_size + size]; uint8_t in_buf[ARRAY_SIZE(out_buf)];
  let out_buf : List Nat := (List.range (cmd_size + size)).map out_init
  let in_buf : List Nat := (List.range (cmd_size + size)).map in_init
  -- wait_ms(WAIT_BUSY_SX1250_MS);
  let t : List Event := [Event.wait_ms WAIT_BUSY_SX1250_MS]
  -- CHECK_NULL(com_target); CHECK_NULL(data);
  match com_target with
  | none => { ret := LGW_SPI_ERROR, data := data, trace := t }
  | some com_device =>
  match data with
  | none => { ret := LGW_SPI_ERROR, data := data, trace := t }
  | some payload =>
    -- out_buf[0] = (uint8_t)op_code;
    let out_buf := out_buf.set 0 (op_code % 256)
    -- for(i = 0; i < (int)size; i++) out_buf[cmd_size + i] = data[i];
    let out_buf := (List.range size).foldl
      (fun buf i => buf.set (cmd_size + i) (payload.getD i 0)) out_buf
    -- uint8_t command_size = cmd_size + size;
    let command_size : Nat := (cmd_size + size) % 256
    match p with
    | .linux =>
      let k : spi_ioc_transfer :=
        { spi_ioc_transfer.zero with
          tx_buf := some out_buf, rx_buf := some in_buf, len := command_size, cs_change := 0 }
      let req := IoctlReq.SPI_IOC_MESSAGE_1 k
      let r := ioctl com_device req
      let a := r.ret
      let in_buf := stored r.rx in_buf
      if a ≠ (k.len : Int) then
        { ret := LGW_SPI_ERROR, data := data, trace := t ++ [Event.ioctl com_device req] }
      else
        -- memcpy(data, in_buf + cmd_size, size);
        { ret := LGW_SPI_SUCCESS, data := some (memcpy payload (in_buf.drop cmd_size) size),
          trace := t ++ [Event.ioctl com_device req] }
    | .freebsd =>
      let cmd_iov : iovec := { iov_base := some out_buf, iov_len := command_size }
      let data_iov : iovec := { iov_base := some in_buf, iov_len := command_size }
      let st : spigen_transfer := { st_command := cmd_iov, st_data := data_iov }
      let req := IoctlReq.SPIGENIOC_TRANSFER st
      let r := ioctl com_device req
      let a := r.ret
      let in_buf := stored r.rx in_buf
      if a < 0 then
        { ret := LGW_SPI_ERROR, data := data, trace := t ++ [Event.ioctl com_device req] }
      else
        -- memcpy(data, in_buf + cmd_size, size);
        { ret := LGW_SPI_SUCCESS, data := some (memcpy payload (in_buf.drop cmd_size) size),
          trace := t ++ [Event.ioctl com_device req] }

/-! ## qsort_r.c -/

/-- The type `qsort_r_compar_t` of `qsort_r.h`: a comparator of two element
pointers and a user pointer (`none`: a null user pointer). -/
abbrev qsort_r_compar_t (Ptr Ctx : Type) := Ptr → Ptr → Option Ctx → Int

/-- The two file-scope variables `qs_cmp` and `qs_arg` of `qsort_r.c`; `none`
is `NULL`. -/
structure QsState (Ptr Ctx : Type) where
  qs_cmp : Option (qsort_r_compar_t Ptr Ctx)
  qs_arg : Option Ctx

/-- The initial value of the file-scope variables: both `NULL`. -/
def QsState.init {Ptr Ctx : Type} : QsState Ptr Ctx :=
  { qs_cmp := none, qs_arg := none }

/-- The host sort `qsort(base, nmemb, size, compar)` of the C library, which is
not part of the repository: it maps the array to the sorted array, and does
not return when a comparator call does not. -/
abbrev HostQsort (Mem Ptr : Type) := Mem → Nat → Nat → (Ptr → Ptr → Option Int) → Option Mem

/-- The static function `qs_glue`, run with the file-scope variables in state
`g`. Calling through a null `qs_cmp` gives no result. -/
def qs_glue {Ptr Ctx : Type} (g : QsState Ptr Ctx) (a b : Ptr) : Option Int :=
  match g.qs_cmp with
  | none => none
  | some f => some (f a b g.qs_arg)

/-- The function `QSORT_R`, started with the file-scope variables in state `g`:
the array afterwards and the file-scope variables afterwards. The comparator
is a function of its arguments only, so it cannot call `QSORT_R` itself. -/
def QSORT_R {Mem Ptr Ctx : Type} (qsort : HostQsort Mem Ptr) (g : QsState Ptr Ctx)
    (base : Mem) (nmemb size : Nat) (compar : Option (qsort_r_compar_t Ptr Ctx))
    (arg : Option Ctx) : Option (Mem × QsState Ptr Ctx) :=
  -- qs_cmp = compar; qs_arg = arg;
  let g := { g with qs_cmp := compar }
  let g := { g with qs_arg := arg }
  -- qsort(base, nmemb, size, qs_glue);
  match qsort base nmemb size (qs_glue g) with
  | none => none
  | some base =>
    -- qs_cmp = NULL; qs_arg = NULL;
    let g := { g with qs_cmp := none }
    let g := { g with qs_arg := none }
    some (base, g)

/-! ### Host sorts and the example comparator -/

/-- What the C standard asks of `qsort` on an array of `nmemb = l.length`
elements: for a comparator that is total and transitive, the call returns, and
the result is a rearrangement of the array in which no element is followed by
one that the comparator puts strictly before it. -/
def HostSortCorrect {α : Type} (qsort : HostQsort (List α) α) : Prop :=
  ∀ (c : α → α → Int) (l : List α) (size : Nat),
    (∀ a b, c a b ≤ 0 ∨ c b a ≤ 0) → (∀ a b d, c a b ≤ 0 → c b d ≤ 0 → c a d ≤ 0) →
    ∃ l', qsort l l.length size (fun a b => some (c a b)) = some l'
      ∧ l'.Perm l ∧ l'.Sorted (fun a b => c a b ≤ 0)

/-- Insertion of `x` into a list with a comparator that may not return. -/
def insert_by {α : Type} (cmp : α → α → Option Int) (x : α) : List α → Option (List α)
  | [] => some [x]
  | y :: ys =>
    match cmp x y with
    | none => none
    | some c => if c ≤ 0 then some (x :: y :: ys) else (insert_by cmp x ys).map (y :: ·)

/-- Insertion sort with a comparator that may not return. -/
def sort_by {α : Type} (cmp : α → α → Option Int) : List α → Option (List α)
  | [] => some []
  | x :: xs =>
    match sort_by cmp xs with
    | none => none
    | some s => insert_by cmp x s

/-- A concrete host sort: insertion sort of the first `nmemb` elements. -/
def insertion_qsort {α : Type} : HostQsort (List α) α :=
  fun base nmemb _size cmp => (sort_by cmp (base.take nmemb)).map (· ++ base.drop nmemb)

/-- The context of the example comparator: the order to sort in. -/
inductive SortOrder where
  | ascending
  | descending
  deriving DecidableEq, Repr

/-- The example three-argument comparator on integers: it reads the order from
its context. -/
def compare_int : qsort_r_compar_t Int SortOrder :=
  fun a b arg =>
    match arg with
    | some .ascending => a - b
    | some .descending => b - a
    | none => 0

/-! ## Theorems -/

/-! ### Address byte arithmetic -/

theorem and_7F_le (a : Nat) : a &&& 0x7F ≤ 0x7F := Nat.and_le_right

theorem read_byte_eq (a : Nat) : (READ_ACCESS ||| (a &&& 0x7F)) % 256 = a &&& 0x7F := by
  have h := and_7F_le a
  simp only [READ_ACCESS, Nat.zero_or]
  exact Nat.mod_eq_of_lt (by omega)

theorem write_byte_lt (a : Nat) : 0x80 ||| (a &&& 0x7F) < 256 := by
  have h := and_7F_le a
  exact Nat.or_lt_two_pow (n := 8) (by norm_num) (by omega)

theorem write_byte_eq (a : Nat) :
    (WRITE_ACCESS ||| (a &&& 0x7F)) % 256 = 0x80 ||| (a &&& 0x7F) := by
  simp only [WRITE_ACCESS]
  exact Nat.mod_eq_of_lt (write_byte_lt a)

theorem mask_idem (a : Nat) : (a &&& 0x7F) &&& 0x7F = a &&& 0x7F := by
  rw [Nat.and_assoc, Nat.and_self]

theorem write_byte_top (a : Nat) : (0x80 ||| (a &&& 0x7F)) &&& 0x80 = 0x80 := by
  apply Nat.eq_of_testBit_eq
  intro i
  simp only [Nat.testBit_and, Nat.testBit_or]
  cases h : Nat.testBit 0x80 i <;> simp

theorem read_byte_top (a : Nat) : (a &&& 0x7F) &&& 0x80 = 0 := by
  have h : (0x7F &&& 0x80 : Nat) = 0 := by decide
  rw [Nat.and_assoc, h, Nat.and_zero]

/-! ### sx125x_spi.c -/

/-- With the handle present, `sx125x_spi_w` is one transfer request with the
frame `[m, 0x80 | (a & 0x7F), d]`, and its status is the platform's success
test on what that request returns. -/
theorem sx125x_spi_w_run (p : Platform) (ioctl : Ioctl) (SPI_SPEED : Nat)
    (fd : Int) (m a d : Nat) :
    ∃ req, req.frame = [m, 0x80 ||| (a &&& 0x7F), d] ∧ req.len = 3 ∧ req.fullDuplex = false
      ∧ sx125x_spi_w p ioctl SPI_SPEED (some fd) m a d =
        { ret := if transferOk p (ioctl fd req).ret 3 then LGW_SPI_SUCCESS else LGW_SPI_ERROR,
          data := (), trace := [Event.ioctl fd req] } := by
  cases p
  · refine ⟨.SPI_IOC_MESSAGE_1 ⟨some [m, 0x80 ||| (a &&& 0x7F), d], none, 3, SPI_SPEED, 0, 8⟩,
      by simp [IoctlReq.frame], rfl, rfl, ?_⟩
    simp only [sx125x_spi_w, spi_ioc_transfer.zero, write_byte_eq, transferOk]
    split <;> simp_all
  · refine ⟨.SPIGENIOC_TRANSFER ⟨⟨some [m, 0x80 ||| (a &&& 0x7F), d], 3⟩, ⟨none, 0⟩⟩,
      by simp [IoctlReq.frame], rfl, rfl, ?_⟩
    simp only [sx125x_spi_w, write_byte_eq, transferOk, decide_eq_true_eq]
    split
    · rw [if_neg (by omega)]
    · rw [if_pos (by omega)]

/-- With the handle and the output pointer present, `sx125x_spi_r` is one
full-duplex transfer request with the frame `[m, a & 0x7F, 0]`; when the
platform's success test passes, the output byte is the third byte of the
receive array, and otherwise it is left as it was. -/
theorem sx125x_spi_r_run (p : Platform) (ioctl : Ioctl) (in_buf : List Nat)
    (fd : Int) (m a d0 : Nat) :
    ∃ req, req.frame = [m, a &&& 0x7F, 0] ∧ req.len = 3 ∧ req.fullDuplex = true
      ∧ sx125x_spi_r p ioctl in_buf (some fd) m a (some d0) =
        if transferOk p (ioctl fd req).ret 3 then
          { ret := LGW_SPI_SUCCESS, data := some ((stored (ioctl fd req).rx in_buf).getD 2 0),
            trace := [Event.ioctl fd req] }
        else
          { ret := LGW_SPI_ERROR, data := some d0, trace := [Event.ioctl fd req] } := by
  cases p
  · refine ⟨.SPI_IOC_MESSAGE_1 ⟨some [m, a &&& 0x7F, 0], some in_buf, 3, 0, 0, 0⟩,
      by simp [IoctlReq.frame], rfl, rfl, ?_⟩
    simp only [sx125x_spi_r, spi_ioc_transfer.zero, read_byte_eq, transferOk]
    split <;> simp_all
  · refine ⟨.SPIGENIOC_TRANSFER ⟨⟨some [m, a &&& 0x7F, 0], 3⟩, ⟨some in_buf, 3⟩⟩,
      by simp [IoctlReq.frame], rfl, rfl, ?_⟩
    simp only [sx125x_spi_r, read_byte_eq, transferOk, decide_eq_true_eq]
    split
    · rw [if_neg (by omega)]
    · rw [if_pos (by omega)]

/-- C4: with the channel handle present, `sx125x_spi_w` performs exactly one
action, a transfer request on the caller's device without a receive buffer,
whose frame is the 3 bytes `[m, 0x80 | (a & 0x7F), d]`. -/
theorem sx125x_spi_w_frame (p : Platform) (ioctl : Ioctl) (SPI_SPEED : Nat)
    (fd : Int) (m a d : Nat) :
    ∃ req, (sx125x_spi_w p ioctl SPI_SPEED (some fd) m a d).trace = [Event.ioctl fd req]
      ∧ req.frame = [m, 0x80 ||| (a &&& 0x7F), d]
      ∧ req.frame.length = 3 ∧ req.len = 3 ∧ req.fullDuplex = false := by
  obtain ⟨req, hf, hl, hd, h⟩ := sx125x_spi_w_run p ioctl SPI_SPEED fd m a d
  exact ⟨req, by rw [h], hf, by rw [hf]; rfl, hl, hd⟩

/-- C5: with the channel handle and the output pointer present, `sx125x_spi_r`
performs exactly one action, a full-duplex transfer request of 3 bytes on the
caller's device whose frame is `[m, a & 0x7F, 0x00]` (access bit clear); when
the driver stored the bytes `[x, y, z]` and the platform's success test passes,
the call returns `LGW_SPI_SUCCESS` and the output byte is `z`. -/
theorem sx125x_spi_r_frame_and_output (p : Platform) (ioctl : Ioctl) (in_buf : List Nat)
    (fd : Int) (m a d0 : Nat) :
    ∃ req, (sx125x_spi_r p ioctl in_buf (some fd) m a (some d0)).trace = [Event.ioctl fd req]
      ∧ req.frame = [m, a &&& 0x7F, 0x00] ∧ req.len = 3 ∧ req.fullDuplex = true
      ∧ (a &&& 0x7F) &&& 0x80 = 0
      ∧ ∀ x y z, (ioctl fd req).rx = [x, y, z] → transferOk p (ioctl fd req).ret req.len = true →
          (sx125x_spi_r p ioctl in_buf (some fd) m a (some d0)).ret = LGW_SPI_SUCCESS
          ∧ (sx125x_spi_r p ioctl in_buf (some fd) m a (some d0)).data = some z := by
  obtain ⟨req, hf, hl, hd, h⟩ := sx125x_spi_r_run p ioctl in_buf fd m a d0
  refine ⟨req, by rw [h]; split <;> rfl, hf, hl, hd, read_byte_top a, ?_⟩
  intro x y z hrx hok
  rw [hl] at hok
  rw [h, if_pos hok, hrx]
  exact ⟨rfl, rfl⟩

/-- Witness for C5: a driver that answers every request with 3 bytes
transferred and the received bytes `[5, 6, 7]`. -/
theorem sx125x_spi_r_frame_and_output_witness :
    (sx125x_spi_r .linux (fun _ _ => ⟨3, [5, 6, 7]⟩) [0, 0, 0] (some 4) 1 0x21 (some 0)).ret
        = LGW_SPI_SUCCESS
      ∧ (sx125x_spi_r .linux (fun _ _ => ⟨3, [5, 6, 7]⟩) [0, 0, 0] (some 4) 1 0x21 (some 0)).data
        = some 7 := by
  obtain ⟨req, -, -, hl, -, -, h⟩ :=
    sx125x_spi_r_frame_and_output .linux (fun _ _ => ⟨3, [5, 6, 7]⟩) [0, 0, 0] 4 1 0x21 0
  exact h 5 6 7 rfl (by rw [hl]; rfl)

/-- C6: with all required arguments present, `sx125x_spi_w` and `sx125x_spi_r`
each issue one 3-byte request and return `LGW_SPI_SUCCESS` exactly when the
platform's success test passes on its return value (exactly 3 on Linux,
non-negative on FreeBSD), and `LGW_SPI_ERROR` exactly when it does not; on
Linux a reported 0, 1 or 2 bytes gives `LGW_SPI_ERROR`. -/
theorem sx125x_spi_status (p : Platform) (ioctl : Ioctl) (SPI_SPEED : Nat) (in_buf : List Nat)
    (fd : Int) (m a d d0 : Nat) :
    (∀ r : Int, (transferOk .linux r 3 = true ↔ r = 3) ∧ (transferOk .freebsd r 3 = true ↔ 0 ≤ r))
    ∧ (∃ req, (sx125x_spi_w p ioctl SPI_SPEED (some fd) m a d).trace = [Event.ioctl fd req]
        ∧ req.len = 3
        ∧ ((sx125x_spi_w p ioctl SPI_SPEED (some fd) m a d).ret = LGW_SPI_SUCCESS
            ↔ transferOk p (ioctl fd req).ret 3 = true)
        ∧ ((sx125x_spi_w p ioctl SPI_SPEED (some fd) m a d).ret = LGW_SPI_ERROR
            ↔ transferOk p (ioctl fd req).ret 3 = false)
        ∧ (p = .linux → (ioctl fd req).ret ∈ [0, 1, 2] →
            (sx125x_spi_w p ioctl SPI_SPEED (some fd) m a d).ret = LGW_SPI_ERROR))
    ∧ (∃ req, (sx125x_spi_r p ioctl in_buf (some fd) m a (some d0)).trace = [Event.ioctl fd req]
        ∧ req.len = 3
        ∧ ((sx125x_spi_r p ioctl in_buf (some fd) m a (some d0)).ret = LGW_SPI_SUCCESS
            ↔ transferOk p (ioctl fd req).ret 3 = true)
        ∧ ((sx125x_spi_r p ioctl in_buf (some fd) m a (some d0)).ret = LGW_SPI_ERROR
            ↔ transferOk p (ioctl fd req).ret 3 = false)
        ∧ (p = .linux → (ioctl fd req).ret ∈ [0, 1, 2] →
            (sx125x_spi_r p ioctl in_buf (some fd) m a (some d0)).ret = LGW_SPI_ERROR)) := by
  have short : ∀ r : Int, r ∈ [0, 1, 2] → transferOk .linux r 3 = false := by
    intro r hr
    simp only [List.mem_cons, List.mem_singleton, List.not_mem_nil, or_false] at hr
    rcases hr with rfl | rfl | rfl <;> rfl
  refine ⟨fun r => ⟨by simp [transferOk], by simp [transferOk]⟩, ?_, ?_⟩
  · obtain ⟨req, -, hl, -, h⟩ := sx125x_spi_w_run p ioctl SPI_SPEED fd m a d
    refine ⟨req, by rw [h], hl, ?_, ?_, ?_⟩
    · rw [h]; cases transferOk p (ioctl fd req).ret 3 <;> simp
    · rw [h]; cases transferOk p (ioctl fd req).ret 3 <;> simp
    · intro hp hr
      subst hp
      rw [h, short _ hr]; rfl
  · obtain ⟨req, -, hl, -, h⟩ := sx125x_spi_r_run p ioctl in_buf fd m a d0
    refine ⟨req, by rw [h]; split <;> rfl, hl, ?_, ?_, ?_⟩
    · rw [h]; cases transferOk p (ioctl fd req).ret 3 <;> simp
    · rw [h]; cases transferOk p (ioctl fd req).ret 3 <;> simp
    · intro hp hr
      subst hp
      rw [h, short _ hr]; rfl

/-- Witness for C6: on Linux a driver that reports 2 bytes transferred makes
both operations return `LGW_SPI_ERROR`. -/
theorem sx125x_spi_status_witness :
    (sx125x_spi_w .linux (fun _ _ => ⟨2, []⟩) 2000000 (some 4) 1 0x21 0x55).ret = LGW_SPI_ERROR
      ∧ (sx125x_spi_r .linux (fun _ _ => ⟨2, []⟩) [0, 0, 0] (some 4) 1 0x21 (some 9)).ret
        = LGW_SPI_ERROR := by
  obtain ⟨-, ⟨_, -, -, -, -, hw⟩, ⟨_, -, -, -, -, hr⟩⟩ :=
    sx125x_spi_status .linux (fun _ _ => ⟨2, []⟩) 2000000 [0, 0, 0] 4 1 0x21 0x55 9
  exact ⟨hw rfl (by decide), hr rfl (by decide)⟩

/-- C7: `sx125x_spi_r` with the channel handle absent, or with the output
pointer absent, and `sx125x_spi_w` with the channel handle absent, return
`LGW_SPI_ERROR`, perform no action at all (the transfer primitive is not
invoked), and `sx125x_spi_r` leaves the output byte as it was. -/
theorem sx125x_spi_null_args (p : Platform) (ioctl : Ioctl) (SPI_SPEED : Nat)
    (in_buf : List Nat) (com_target : Option Int) (m a d : Nat) (data : Option Nat) :
    sx125x_spi_r p ioctl in_buf none m a data
        = { ret := LGW_SPI_ERROR, data := data, trace := [] }
      ∧ sx125x_spi_r p ioctl in_buf com_target m a none
        = { ret := LGW_SPI_ERROR, data := none, trace := [] }
      ∧ sx125x_spi_w p ioctl SPI_SPEED none m a d
        = { ret := LGW_SPI_ERROR, data := (), trace := [] } := by
  refine ⟨rfl, ?_, rfl⟩
  cases com_target <;> rfl

/-- C10: `sx125x_spi_w` and `sx125x_spi_r` called with address `a` give the
same result (status, output byte, submitted request) as with `a & 0x7F`, for
any channel, mux target, data byte and driver; address `0xFF` gives the same
result as `0x7F`; the second frame byte has its top bit set for a write and
clear for a read. -/
theorem sx125x_spi_address_mask (p : Platform) (ioctl : Ioctl) (SPI_SPEED : Nat)
    (in_buf : List Nat) (com_target : Option Int) (fd : Int) (m a d d0 : Nat)
    (data : Option Nat) :
    sx125x_spi_w p ioctl SPI_SPEED com_target m a d
        = sx125x_spi_w p ioctl SPI_SPEED com_target m (a &&& 0x7F) d
      ∧ sx125x_spi_r p ioctl in_buf com_target m a data
        = sx125x_spi_r p ioctl in_buf com_target m (a &&& 0x7F) data
      ∧ sx125x_spi_w p ioctl SPI_SPEED com_target m 0xFF d
        = sx125x_spi_w p ioctl SPI_SPEED com_target m 0x7F d
      ∧ sx125x_spi_r p ioctl in_buf com_target m 0xFF data
        = sx125x_spi_r p ioctl in_buf com_target m 0x7F data
      ∧ (∃ req b, (sx125x_spi_w p ioctl SPI_SPEED (some fd) m a d).trace = [Event.ioctl fd req]
          ∧ req.frame.get? 1 = some b ∧ b &&& 0x80 = 0x80)
      ∧ (∃ req b, (sx125x_spi_r p ioctl in_buf (some fd) m a (some d0)).trace
            = [Event.ioctl fd req]
          ∧ req.frame.get? 1 = some b ∧ b &&& 0x80 = 0) := by
  have hFF : (0xFF &&& 0x7F : Nat) = 0x7F &&& 0x7F := by decide
  refine ⟨?_, ?_, ?_, ?_, ?_, ?_⟩
  · simp only [sx125x_spi_w, mask_idem]
  · simp only [sx125x_spi_r, mask_idem]
  · simp only [sx125x_spi_w, hFF]
  · simp only [sx125x_spi_r, hFF]
  · obtain ⟨req, hf, -, -, h⟩ := sx125x_spi_w_run p ioctl SPI_SPEED fd m a d
    exact ⟨req, _, by rw [h], by rw [hf]; rfl, write_byte_top a⟩
  · obtain ⟨req, hf, -, -, h⟩ := sx125x_spi_r_run p ioctl in_buf fd m a d0
    exact ⟨req, _, by rw [h]; split <;> rfl, by rw [hf]; rfl, read_byte_top a⟩

/-! ### sx1261_spi.c -/

/-- The frame preparation of `sx1261_spi_w` and `sx1261_spi_r`: after the store
of the op-code and `k` rounds of the copy loop, the array holds the op-code,
the first `k` payload bytes, and its initial content beyond them. -/
theorem fill_loop (op : Nat) (payload init : List Nat) (k : Nat)
    (hk : k + 1 ≤ init.length) (hp : k ≤ payload.length) :
    (List.range k).foldl (fun buf i => buf.set (1 + i) (payload.getD i 0)) (init.set 0 op)
      = op :: (payload.take k ++ init.drop (k + 1)) := by
  induction k with
  | zero =>
    cases init with
    | nil => simp at hk
    | cons x xs => simp
  | succ k ih =>
    rw [List.range_succ, List.foldl_append, ih (by omega) (by omega)]
    have h1 : (List.take k payload).length = k := by simp; omega
    have h2 : List.drop (k + 1) init = init[k+1] :: List.drop (k + 1 + 1) init :=
      List.drop_eq_getElem_cons (by omega)
    have h3 : List.take (k + 1) payload = List.take k payload ++ [payload[k]] := by
      rw [List.take_succ]
      simp [List.getElem?_eq_getElem (show k < payload.length by omega)]
    have h4 : payload.getD k 0 = payload[k] := by
      simp [List.getD, List.getElem?_eq_getElem (show k < payload.length by omega)]
    simp only [List.foldl_cons, List.foldl_nil, Nat.add_comm 1 k, List.set_cons_succ, h4]
    rw [List.set_append, if_neg (by omega), h1, Nat.sub_self, h2, List.set_cons_zero, h3,
      List.append_assoc, List.singleton_append]

/-- The prepared `out_buf` of `sx1261_spi_w` and `sx1261_spi_r` is the op-code
byte followed by the first `size` payload bytes, whatever the array held. -/
theorem out_buf_prepared (out_init : Nat → Nat) (op : Nat) (payload : List Nat) (size : Nat)
    (hp : size ≤ payload.length) :
    (List.range size).foldl (fun buf i => buf.set (1 + i) (payload.getD i 0))
        (((List.range (1 + size)).map out_init).set 0 op)
      = op :: payload.take size := by
  rw [fill_loop op payload _ size (by simp; omega) hp]
  simp [Nat.add_comm size 1]

/-- With the handle and the payload present, `sx1261_spi_w` waits 1 ms and then
issues one request without a receive buffer; the transmit array is the op-code
byte followed by the payload, the requested length is `(1 + size) % 256`, and
the status is the platform's success test for that length. -/
theorem sx1261_spi_w_run (p : Platform) (ioctl : Ioctl) (SPI_SPEED : Nat) (out_init : Nat → Nat)
    (fd : Int) (op : Nat) (payload : List Nat) (size : Nat) (hp : size ≤ payload.length) :
    ∃ req, req.frame = ((op % 256) :: payload.take size).take ((1 + size) % 256)
      ∧ req.len = (1 + size) % 256 ∧ req.fullDuplex = false
      ∧ sx1261_spi_w p ioctl SPI_SPEED out_init (some fd) op (some payload) size =
        { ret := if transferOk p (ioctl fd req).ret ((1 + size) % 256) then LGW_SPI_SUCCESS
                 else LGW_SPI_ERROR,
          data := some payload, trace := [Event.wait_ms 1, Event.ioctl fd req] } := by
  have hb := out_buf_prepared out_init (op % 256) payload size hp
  cases p
  · refine ⟨.SPI_IOC_MESSAGE_1
      ⟨some ((op % 256) :: payload.take size), none, (1 + size) % 256, SPI_SPEED, 0, 8⟩,
      by simp [IoctlReq.frame], rfl, rfl, ?_⟩
    simp only [sx1261_spi_w, spi_ioc_transfer.zero, hb, transferOk, WAIT_BUSY_SX1250_MS]
    split <;> simp_all
  · refine ⟨.SPIGENIOC_TRANSFER ⟨⟨some ((op % 256) :: payload.take size), (1 + size) % 256⟩,
      ⟨none, 0⟩⟩, by simp [IoctlReq.frame], rfl, rfl, ?_⟩
    simp only [sx1261_spi_w, hb, transferOk, decide_eq_true_eq, WAIT_BUSY_SX1250_MS]
    split
    · rw [if_neg (by omega)]; rfl
    · rw [if_pos (by omega)]; rfl

/-- With the handle and the payload present, `sx1261_spi_r` waits 1 ms and then
issues one full-duplex request of `(1 + size) % 256` bytes; when the platform's
success test passes, `size` bytes of the receive array after its first byte
are copied to the payload, and otherwise the payload is left as it was. -/
theorem sx1261_spi_r_run (p : Platform) (ioctl : Ioctl) (out_init in_init : Nat → Nat)
    (fd : Int) (op : Nat) (payload : List Nat) (size : Nat) (hp : size ≤ payload.length) :
    ∃ req, req.frame = ((op % 256) :: payload.take size).take ((1 + size) % 256)
      ∧ req.len = (1 + size) % 256 ∧ req.fullDuplex = true
      ∧ sx1261_spi_r p ioctl out_init in_init (some fd) op (some payload) size =
        if transferOk p (ioctl fd req).ret ((1 + size) % 256) then
          { ret := LGW_SPI_SUCCESS,
            data := some (memcpy payload
              ((stored (ioctl fd req).rx ((List.range (1 + size)).map in_init)).drop 1) size),
            trace := [Event.wait_ms 1, Event.ioctl fd req] }
        else
          { ret := LGW_SPI_ERROR, data := some payload,
            trace := [Event.wait_ms 1, Event.ioctl fd req] } := by
  have hb := out_buf_prepared out_init (op % 256) payload size hp
  cases p
  · refine ⟨.SPI_IOC_MESSAGE_1 ⟨some ((op % 256) :: payload.take size),
      some ((List.range (1 + size)).map in_init), (1 + size) % 256, 0, 0, 0⟩,
      by simp [IoctlReq.frame], rfl, rfl, ?_⟩
    simp only [sx1261_spi_r, spi_ioc_transfer.zero, hb, transferOk, WAIT_BUSY_SX1250_MS]
    split <;> simp_all
  · refine ⟨.SPIGENIOC_TRANSFER ⟨⟨some ((op % 256) :: payload.take size), (1 + size) % 256⟩,
      ⟨some ((List.range (1 + size)).map in_init), (1 + size) % 256⟩⟩,
      by simp [IoctlReq.frame], rfl, rfl, ?_⟩
    simp only [sx1261_spi_r, hb, transferOk, decide_eq_true_eq, WAIT_BUSY_SX1250_MS]
    split
    · rw [if_neg (by omega)]; rfl
    · rw [if_pos (by omega)]; rfl

/-- The receive array of `sx1261_spi_r` after its first cell, when the driver
stored nothing: the initial content of cells `1 .. n`. -/
theorem in_buf_tail (f : Nat → Nat) (n : Nat) :
    (stored [] ((List.range (1 + n)).map f)).drop 1 = (List.range n).map (fun i => f (i + 1)) := by
  simp only [stored, List.length_nil, List.drop_zero, List.nil_append, Nat.add_comm 1 n,
    List.range_succ_eq_map, List.map_cons, List.map_map, List.drop_succ_cons]
  rfl

/-- For sizes up to 254 and a payload of exactly `size` bytes, `sx1261_spi_w`
waits 1 ms and requests one transfer whose frame is the op-code followed by the
payload, `size + 1` bytes; on Linux it succeeds exactly when `size + 1` bytes
are reported. -/
theorem sx1261_spi_w_small (p : Platform) (ioctl : Ioctl) (SPI_SPEED : Nat)
    (out_init : Nat → Nat) (fd : Int) (op : Nat) (payload : List Nat) (size : Nat)
    (hop : op < 256) (hlen : payload.length = size) (hsize : size ≤ 254) :
    ∃ req, (sx1261_spi_w p ioctl SPI_SPEED out_init (some fd) op (some payload) size).trace
          = [Event.wait_ms 1, Event.ioctl fd req]
      ∧ req.frame = op :: payload ∧ req.frame.length = size + 1 ∧ req.len = size + 1
      ∧ ((sx1261_spi_w p ioctl SPI_SPEED out_init (some fd) op (some payload) size).ret
            = LGW_SPI_SUCCESS ↔ transferOk p (ioctl fd req).ret (size + 1) = true) := by
  obtain ⟨req, hf, hl, -, h⟩ :=
    sx1261_spi_w_run p ioctl SPI_SPEED out_init fd op payload size (by omega)
  have hm : (1 + size) % 256 = size + 1 := by omega
  have hf2 : req.frame = op :: payload := by
    rw [hf, hm, Nat.mod_eq_of_lt hop, ← hlen, List.take_length]
    exact List.take_of_length_le (by simp)
  refine ⟨req, by rw [h], hf2, by rw [hf2]; simp [hlen], by rw [hl, hm], ?_⟩
  rw [h, hm]
  cases transferOk p (ioctl fd req).ret (size + 1) <;> simp

/-- For sizes up to 254 and a payload buffer of exactly `size` bytes,
`sx1261_spi_r` waits 1 ms and requests one full-duplex transfer of `size + 1`
bytes whose frame is the op-code followed by the buffer content; when the
driver stored `e :: rs` with `rs` of `size` bytes and the platform's success
test passes, it returns `LGW_SPI_SUCCESS` and the buffer holds `rs`. -/
theorem sx1261_spi_r_small (p : Platform) (ioctl : Ioctl) (out_init in_init : Nat → Nat)
    (fd : Int) (op : Nat) (payload : List Nat) (size : Nat)
    (hop : op < 256) (hlen : payload.length = size) (hsize : size ≤ 254) :
    ∃ req, (sx1261_spi_r p ioctl out_init in_init (some fd) op (some payload) size).trace
          = [Event.wait_ms 1, Event.ioctl fd req]
      ∧ req.frame = op :: payload ∧ req.len = size + 1 ∧ req.fullDuplex = true
      ∧ ∀ e rs, (ioctl fd req).rx = e :: rs → rs.length = size →
          transferOk p (ioctl fd req).ret req.len = true →
          (sx1261_spi_r p ioctl out_init in_init (some fd) op (some payload) size).ret
            = LGW_SPI_SUCCESS
          ∧ (sx1261_spi_r p ioctl out_init in_init (some fd) op (some payload) size).data
            = some rs := by
  obtain ⟨req, hf, hl, hd, h⟩ :=
    sx1261_spi_r_run p ioctl out_init in_init fd op payload size (by omega)
  have hm : (1 + size) % 256 = size + 1 := by omega
  have hf2 : req.frame = op :: payload := by
    rw [hf, hm, Nat.mod_eq_of_lt hop, ← hlen, List.take_length]
    exact List.take_of_length_le (by simp)
  refine ⟨req, by rw [h]; split <;> rfl, hf2, by rw [hl, hm], hd, ?_⟩
  intro e rs hrx hrs hok
  rw [hl] at hok
  rw [h, if_pos hok, hrx]
  refine ⟨rfl, ?_⟩
  simp only [memcpy, stored, List.cons_append, List.drop_succ_cons, List.drop_zero]
  rw [List.take_append_of_le_length (by omega), ← hrs, List.take_length,
    List.drop_of_length_le (by omega), List.append_nil]

/-- C1 at size 255: `sx1261_spi_w` on Linux, called with a payload of 255
bytes, waits 1 ms and then requests a transfer of 0 bytes (an empty frame)
instead of 256, and returns `LGW_SPI_SUCCESS` exactly when the driver reports 0
bytes transferred. -/
theorem sx1261_spi_w_size_255 (ioctl : Ioctl) (SPI_SPEED : Nat) (out_init : Nat → Nat) :
    ∃ req,
      (sx1261_spi_w .linux ioctl SPI_SPEED out_init (some 4) 0x0D
          (some (List.replicate 255 0xAA)) 255).trace = [Event.wait_ms 1, Event.ioctl 4 req]
      ∧ req.len = 0 ∧ req.frame = []
      ∧ ((sx1261_spi_w .linux ioctl SPI_SPEED out_init (some 4) 0x0D
            (some (List.replicate 255 0xAA)) 255).ret = LGW_SPI_SUCCESS
          ↔ (ioctl 4 req).ret = 0) := by
  obtain ⟨req, hf, hl, -, h⟩ := sx1261_spi_w_run .linux ioctl SPI_SPEED out_init 4 0x0D
    (List.replicate 255 0xAA) 255 (by rw [List.length_replicate])
  have hm : (1 + 255) % 256 = 0 := by norm_num
  rw [hm] at hf hl h
  refine ⟨req, by rw [h], hl, by rw [hf]; rfl, ?_⟩
  rw [h]
  simp only [transferOk]
  by_cases h0 : (ioctl 4 req).ret = 0 <;> simp [h0]

/-- C2 at size 255: `sx1261_spi_r` on Linux, called with a buffer of 255 bytes
and a driver that transfers as many bytes as it is asked for (receiving `0x55`
for each), waits 1 ms, requests a transfer of 0 bytes instead of 256, returns
`LGW_SPI_SUCCESS`, and leaves in the buffer the initial content of the cells
`1 .. 255` of the local array `in_buf`, not bytes received from the device. -/
theorem sx1261_spi_r_size_255 (out_init in_init : Nat → Nat) :
    ∃ req,
      (sx1261_spi_r .linux (fun _ q => ⟨q.len, List.replicate q.len 0x55⟩) out_init in_init
          (some 4) 0x1D (some (List.replicate 255 0)) 255).trace
        = [Event.wait_ms 1, Event.ioctl 4 req]
      ∧ req.len = 0
      ∧ (sx1261_spi_r .linux (fun _ q => ⟨q.len, List.replicate q.len 0x55⟩) out_init in_init
          (some 4) 0x1D (some (List.replicate 255 0)) 255).ret = LGW_SPI_SUCCESS
      ∧ (sx1261_spi_r .linux (fun _ q => ⟨q.len, List.replicate q.len 0x55⟩) out_init in_init
          (some 4) 0x1D (some (List.replicate 255 0)) 255).data
        = some ((List.range 255).map (fun i => in_init (i + 1))) := by
  obtain ⟨req, -, hl, -, h⟩ := sx1261_spi_r_run .linux
    (fun _ q => ⟨q.len, List.replicate q.len 0x55⟩) out_init in_init 4 0x1D
    (List.replicate 255 0) 255 (by rw [List.length_replicate])
  have hm : (1 + 255) % 256 = 0 := by norm_num
  rw [hm] at hl
  have hok : transferOk .linux (req.len : Int) ((1 + 255) % 256) = true := by
    rw [hl, hm]; rfl
  simp only [if_pos hok] at h
  refine ⟨req, by rw [h], hl, by rw [h], ?_⟩
  rw [h]
  simp only [hl, List.replicate_zero, in_buf_tail, memcpy]
  rw [List.take_of_length_le (by rw [List.length_map, List.length_range]),
    List.drop_of_length_le (by rw [List.length_replicate]), List.append_nil]

/-- C3 as stated fails: with the channel handle absent, `sx1261_spi_w` and
`sx1261_spi_r` do perform the 1 ms busy-wait before they return. -/
theorem sx1261_spi_null_handle_waits :
    Event.wait_ms 1 ∈
        (sx1261_spi_w .linux (fun _ _ => ⟨0, []⟩) 2000000 (fun _ => 0) none 0x0D
          (some [1, 2]) 2).trace
      ∧ Event.wait_ms 1 ∈
        (sx1261_spi_r .linux (fun _ _ => ⟨0, []⟩) (fun _ => 0) (fun _ => 0) none 0x1D
          (some [1, 2]) 2).trace := by
  constructor <;> simp [sx1261_spi_w, sx1261_spi_r, WAIT_BUSY_SX1250_MS]

/-- C3, amended: whenever the channel handle or the payload pointer is absent,
`sx1261_spi_w` and `sx1261_spi_r` return `LGW_SPI_ERROR` after the 1 ms
busy-wait, which is their only action: no transfer is performed and the
payload is left as it was. -/
theorem sx1261_spi_null_args (p : Platform) (ioctl : Ioctl) (SPI_SPEED : Nat)
    (out_init in_init : Nat → Nat) (com_target : Option Int) (op : Nat)
    (data : Option (List Nat)) (size : Nat) (h : com_target = none ∨ data = none) :
    sx1261_spi_w p ioctl SPI_SPEED out_init com_target op data size
        = { ret := LGW_SPI_ERROR, data := data, trace := [Event.wait_ms 1] }
      ∧ sx1261_spi_r p ioctl out_init in_init com_target op data size
        = { ret := LGW_SPI_ERROR, data := data, trace := [Event.wait_ms 1] } := by
  rcases h with rfl | rfl
  · exact ⟨rfl, rfl⟩
  · cases com_target <;> exact ⟨rfl, rfl⟩

/-- Witness for C3, amended: a present handle and an absent payload pointer. -/
theorem sx1261_spi_null_args_witness :
    ((some 4 : Option Int) = none ∨ (none : Option (List Nat)) = none)
      ∧ sx1261_spi_w .linux (fun _ _ => ⟨0, []⟩) 2000000 (fun _ => 0) (some 4) 0x0D none 2
        = { ret := LGW_SPI_ERROR, data := none, trace := [Event.wait_ms 1] }
      ∧ sx1261_spi_r .linux (fun _ _ => ⟨0, []⟩) (fun _ => 0) (fun _ => 0) (some 4) 0x0D none 2
        = { ret := LGW_SPI_ERROR, data := none, trace := [Event.wait_ms 1] } :=
  ⟨Or.inr rfl, sx1261_spi_null_args .linux (fun _ _ => ⟨0, []⟩) 2000000 (fun _ => 0)
    (fun _ => 0) (some 4) 0x0D none 2 (Or.inr rfl)⟩

/-! ### qsort_r.c -/

theorem insert_by_total {α : Type} (c : α → α → Int) (x : α) (l : List α) :
    insert_by (fun a b => some (c a b)) x l
      = some (List.orderedInsert (fun a b => c a b ≤ 0) x l) := by
  induction l with
  | nil => rfl
  | cons y ys ih =>
    simp only [insert_by, List.orderedInsert, ih]
    split <;> rfl

theorem sort_by_total {α : Type} (c : α → α → Int) (l : List α) :
    sort_by (fun a b => some (c a b)) l
      = some (List.insertionSort (fun a b => c a b ≤ 0) l) := by
  induction l with
  | nil => rfl
  | cons x xs ih => simp only [sort_by, ih, insert_by_total, List.insertionSort]

/-- The concrete host sort meets `HostSortCorrect`. -/
theorem insertion_qsort_correct {α : Type} : HostSortCorrect (insertion_qsort (α := α)) := by
  intro c l size htot htrans
  haveI : IsTotal α (fun a b => c a b ≤ 0) := ⟨htot⟩
  haveI : IsTrans α (fun a b => c a b ≤ 0) := ⟨htrans⟩
  refine ⟨List.insertionSort (fun a b => c a b ≤ 0) l, ?_, List.perm_insertionSort _ l,
    List.sorted_insertionSort _ l⟩
  simp [insertion_qsort, sort_by_total]

/-- The array a correct host sort leaves for the ascending order. -/
theorem sorted_ascending (l : List Int) (hp : l.Perm [5, 3, 1, 4, 2])
    (hs : l.Sorted (fun a b => a - b ≤ 0)) : l = [1, 2, 3, 4, 5] := by
  haveI : IsAntisymm Int (fun a b => a - b ≤ 0) := ⟨fun a b h1 h2 => by omega⟩
  refine List.eq_of_perm_of_sorted (hp.trans (by decide)) hs ?_
  simp [List.Sorted]

/-- The array a correct host sort leaves for the descending order. -/
theorem sorted_descending (l : List Int) (hp : l.Perm [5, 3, 1, 4, 2])
    (hs : l.Sorted (fun a b => b - a ≤ 0)) : l = [5, 4, 3, 2, 1] := by
  haveI : IsAntisymm Int (fun a b => b - a ≤ 0) := ⟨fun a b h1 h2 => by omega⟩
  refine List.eq_of_perm_of_sorted (hp.trans (by decide)) hs ?_
  simp [List.Sorted]

/-- C8: for every comparator and context, `QSORT_R` leaves the array exactly as
the host two-argument sort does when run with the comparator
`(a, b) -> compar(a, b, arg)`, and returns whenever that sort returns; with a
correct host sort, `[5,3,1,4,2]` sorted with the ascending context gives
`[1,2,3,4,5]` and with the descending context gives `[5,4,3,2,1]`. -/
theorem QSORT_R_refines_qsort {Mem Ptr Ctx : Type} (qsort : HostQsort Mem Ptr)
    (g : QsState Ptr Ctx) (base : Mem) (nmemb size : Nat) (compar : qsort_r_compar_t Ptr Ctx)
    (arg : Option Ctx) (isort : HostQsort (List Int) Int) (gi : QsState Int SortOrder)
    (h : HostSortCorrect isort) :
    (QSORT_R qsort g base nmemb size (some compar) arg).map Prod.fst
        = qsort base nmemb size (fun a b => some (compar a b arg))
      ∧ (QSORT_R isort gi [5, 3, 1, 4, 2] 5 4 (some compare_int) (some .ascending)).map Prod.fst
        = some [1, 2, 3, 4, 5]
      ∧ (QSORT_R isort gi [5, 3, 1, 4, 2] 5 4 (some compare_int) (some .descending)).map Prod.fst
        = some [5, 4, 3, 2, 1] := by
  have gen : ∀ {M P C : Type} (q : HostQsort M P) (g0 : QsState P C) (b : M) (n s : Nat)
      (f : qsort_r_compar_t P C) (x : Option C),
      (QSORT_R q g0 b n s (some f) x).map Prod.fst = q b n s (fun a b => some (f a b x)) := by
    intro M P C q g0 b n s f x
    have hg : qs_glue ({ qs_cmp := some f, qs_arg := x } : QsState P C)
        = fun a b => some (f a b x) := rfl
    simp only [QSORT_R, hg]
    cases q b n s (fun a b => some (f a b x)) <;> rfl
  refine ⟨gen qsort g base nmemb size compar arg, ?_, ?_⟩
  · obtain ⟨l, hl, hp, hs⟩ := h (fun a b => compare_int a b (some .ascending)) [5, 3, 1, 4, 2] 4
      (fun a b => by simp only [compare_int]; omega)
      (fun a b d h1 h2 => by simp only [compare_int] at *; omega)
    rw [gen]
    exact hl.trans (congrArg some (sorted_ascending l hp hs))
  · obtain ⟨l, hl, hp, hs⟩ := h (fun a b => compare_int a b (some .descending)) [5, 3, 1, 4, 2] 4
      (fun a b => by simp only [compare_int]; omega)
      (fun a b d h1 h2 => by simp only [compare_int] at *; omega)
    rw [gen]
    exact hl.trans (congrArg some (sorted_descending l hp hs))

/-- Witness for C8: the insertion sort as host sort, on the example array. -/
theorem QSORT_R_refines_qsort_witness :
    HostSortCorrect (insertion_qsort (α := Int))
      ∧ (QSORT_R insertion_qsort QsState.init [5, 3, 1, 4, 2] 5 4 (some compare_int)
          (some .ascending)).map Prod.fst = some [1, 2, 3, 4, 5]
      ∧ (QSORT_R insertion_qsort QsState.init [5, 3, 1, 4, 2] 5 4 (some compare_int)
          (some .descending)).map Prod.fst = some [5, 4, 3, 2, 1] :=
  ⟨insertion_qsort_correct,
    (QSORT_R_refines_qsort insertion_qsort QsState.init [5, 3, 1, 4, 2] 5 4 compare_int
      (some .ascending) insertion_qsort QsState.init insertion_qsort_correct).2⟩

end Sx1302Hal
